import Mathlib

/-!
# Verification of the bottleneck caching / synchronization layer

Shallow embedding of the renderer stores of the `bottleneck` repository:

* `src/renderer/stores/syncStore.ts`  — whole-workspace / single-scope /
  single-entity synchronization (`syncAll`, `syncRepository`, `syncPullRequest`);
* `src/renderer/stores/issueStore.ts` — the issue entity store
  (`fetchIssues`, `updateIssue`, `linkPRsToIssue`, `unlinkPRFromIssue`);
* `src/renderer/stores/devinStore.ts` — the debounced cache persistence
  (`saveDevinCache`, `clearComments`).

Conventions of the embedding:

* zustand state objects become Lean structures; a `set(...)` call becomes a
  functional state update.  Every `set(...)` call publishes one observable
  state, so an `async` action is embedded as a function from the pre-state to
  the *list of published states* (its trace); the final store state is the
  last element of the trace (or the pre-state if nothing was published).
* every `await` of the remote API / auth layer is a suspension point whose
  outcome is passed in as an explicit `Except String _` parameter
  (`.error msg` models a rejected promise carrying `msg`).
* JS `Map`/`Set` objects become functions `String → Option _` / `String → Bool`;
  JS numbers in the progress computation become `ℚ`.
* the `syncDebounceTimer` handle is carried by the real store but never gates
  control flow (it is only ever cleared and re-armed), so it is omitted from
  the embedded state; the *deferred actions* that timers run are embedded as
  separate functions applied to whatever state is current when they fire.
-/

namespace Bottleneck

/-- Functional update of a string-keyed map, modelling `Map.prototype.set`. -/
def mset {α : Type} (m : String → Option α) (k : String) (v : α) :
    String → Option α :=
  fun k' => if k' = k then some v else m k'

/-- Functional update of a string set, modelling `Set.prototype.add`. -/
def sadd (s : String → Bool) (k : String) : String → Bool :=
  fun k' => if k' = k then true else s k'

/-! ## syncStore.ts -/

/-- State of `useSyncStore` (`syncStore.ts`, lines 4–22 / 37–43), minus the
timer handle (see the header note).  `lastSyncTime` is an abstract timestamp. -/
structure SyncState where
  isSyncing : Bool
  lastSyncTime : Option Nat
  syncProgress : ℚ
  syncMessage : String
  syncErrors : List String
deriving Repr, DecidableEq

/-- `addSyncError` (`syncStore.ts`, lines 265–269): append to the error list. -/
def addSyncErrorState (s : SyncState) (e : String) : SyncState :=
  { s with syncErrors := s.syncErrors ++ [e] }

/-- `clearSyncErrors` (`syncStore.ts`, lines 271–273). -/
def clearSyncErrorsState (s : SyncState) : SyncState :=
  { s with syncErrors := [] }

/-- A repository as consumed by `syncAll` (`id` for deduplication,
`owner`/`name` for the fetch, `full_name` for the error message). -/
structure SyncRepo where
  id : Nat
  owner : String
  name : String
  full_name : String
deriving Repr, DecidableEq

/-- `syncAll`, lines 86–88: selected repo first, then the recently viewed
repos with the selected one's id filtered out. -/
def reposToSync (selected : Option SyncRepo) (recent : List SyncRepo) :
    List SyncRepo :=
  match selected with
  | some s => s :: recent.filter (fun r => r.id ≠ s.id)
  | none => recent

/-- The `updateProgress` closure of `syncAll` (lines 115–122): bump the
counter and publish `min (20 + 80 * (completed / total)) 99`. -/
def updateProgressState (s : SyncState) (completed total : Nat) : SyncState :=
  { s with
    syncProgress := min (20 + 80 * ((completed : ℚ) / (total : ℚ))) 99,
    syncMessage :=
      "Syncing " ++ toString completed ++ "/" ++ toString total ++ " repos..." }

/-- The per-scope loop of `syncAll` (lines 99–128): each scope's fetch either
resolves, or rejects — in which case its `.catch` handler publishes the state
with `"Failed to sync <full_name>: <msg>"` appended — and then
`updateProgress` publishes the new progress.  Per-scope settlement is embedded
in issue order (one admissible interleaving; the published progress values and
the final state are the same in every interleaving). -/
def syncLoop (total completed : Nat) (s : SyncState) :
    List (SyncRepo × Except String Unit) → List SyncState
  | [] => []
  | (repo, outcome) :: rest =>
    match outcome with
    | .ok _ =>
      let s' := updateProgressState s (completed + 1) total
      s' :: syncLoop total (completed + 1) s' rest
    | .error msg =>
      let sE := addSyncErrorState s
        ("Failed to sync " ++ repo.full_name ++ ": " ++ msg)
      let s' := updateProgressState sE (completed + 1) total
      sE :: s' :: syncLoop total (completed + 1) s' rest

/-- `syncAll` (`syncStore.ts`, lines 45–155) as a trace of published states.
`repoFetch` is the outcome of `prStore.fetchRepositories()`; `outcomes` gives
each repo's `fetchPullRequests` outcome; `now` is the completion clock value.
An empty trace means the trigger returned without publishing (the
`isSyncing` guard, lines 49–52). -/
def syncAllTrace (st : SyncState) (now : Nat) (repoFetch : Except String Unit)
    (selected : Option SyncRepo) (recent : List SyncRepo)
    (outcomes : SyncRepo → Except String Unit) : List SyncState :=
  if st.isSyncing then []
  else
    let s1 : SyncState :=
      { st with isSyncing := true, syncProgress := 0,
                syncMessage := "Starting sync...", syncErrors := [] }
    let s2 := { s1 with syncMessage := "Fetching repositories..." }
    match repoFetch with
    | .error msg =>
      let s3 := { s2 with isSyncing := false, syncMessage := "Sync failed",
                          syncProgress := 0 }
      [s1, s2, s3, addSyncErrorState s3 msg]
    | .ok _ =>
      let s3 := { s2 with syncProgress := 20 }
      let repos := reposToSync selected recent
      let total := repos.length
      if total = 0 then
        let s4 := { s3 with syncProgress := 100,
                            syncMessage := "No repositories to sync" }
        let s5 := { s4 with isSyncing := false, lastSyncTime := some now,
                            syncProgress := 100,
                            syncMessage := "Sync complete!", syncErrors := [] }
        [s1, s2, s3, s4, s5]
      else
        let steps := syncLoop total 0 s3 (repos.map (fun r => (r, outcomes r)))
        let sLast := steps.getLast?.getD s3
        let sDone := { sLast with isSyncing := false, lastSyncTime := some now,
                                  syncProgress := 100,
                                  syncMessage := "Sync complete!",
                                  syncErrors := [] }
        [s1, s2, s3] ++ steps ++ [sDone]

/-- Store state after a `syncAll` trigger: last published state, or the
pre-state if the trigger was a no-op. -/
def syncAllFinal (st : SyncState) (now : Nat) (repoFetch : Except String Unit)
    (selected : Option SyncRepo) (recent : List SyncRepo)
    (outcomes : SyncRepo → Except String Unit) : SyncState :=
  (syncAllTrace st now repoFetch selected recent outcomes).getLast?.getD st

/-- `syncRepository` (`syncStore.ts`, lines 157–196) as a trace.  `outcome` is
the outcome of the forced `fetchPullRequests`. -/
def syncRepositoryTrace (st : SyncState) (now : Nat) (owner repo : String)
    (outcome : Except String Unit) : List SyncState :=
  if st.isSyncing then []
  else
    let s1 := { st with isSyncing := true,
                        syncMessage := "Syncing " ++ owner ++ "/" ++ repo ++ "..." }
    match outcome with
    | .ok _ =>
      [s1, { s1 with isSyncing := false, lastSyncTime := some now,
                     syncMessage := "Repository synced!", syncErrors := [] }]
    | .error msg =>
      let s2 := { s1 with isSyncing := false, syncMessage := "Sync failed" }
      [s1, s2, addSyncErrorState s2 msg]

/-- Store state after a `syncRepository` trigger. -/
def syncRepositoryFinal (st : SyncState) (now : Nat) (owner repo : String)
    (outcome : Except String Unit) : SyncState :=
  (syncRepositoryTrace st now owner repo outcome).getLast?.getD st

/-- `syncPullRequest` (`syncStore.ts`, lines 198–256) as a trace.  `outcome`
folds the token lookup and the PR fetch (the PR-store update on success lives
outside this state).  Note the source has no `isSyncing` guard here. -/
def syncPullRequestTrace (st : SyncState) (now : Nat) (number : Nat)
    (outcome : Except String Unit) : List SyncState :=
  let s1 := { st with isSyncing := true,
                      syncMessage := "Syncing PR #" ++ toString number ++ "..." }
  match outcome with
  | .ok _ =>
    [s1, { s1 with isSyncing := false, lastSyncTime := some now,
                   syncMessage := "PR synced!" }]
  | .error msg =>
    let s2 := { s1 with isSyncing := false, syncMessage := "Sync failed" }
    [s1, s2, addSyncErrorState s2 msg]

/-- Store state after a `syncPullRequest` trigger. -/
def syncPullRequestFinal (st : SyncState) (now : Nat) (number : Nat)
    (outcome : Except String Unit) : SyncState :=
  (syncPullRequestTrace st now number outcome).getLast?.getD st

/-- The deferred reset scheduled at the end of `syncAll` (lines 144–146):
unconditionally blank the message and zero the progress of whatever state is
current when the timer fires. -/
def syncAllAutoClear (s : SyncState) : SyncState :=
  { s with syncMessage := "", syncProgress := 0 }

/-- The deferred reset scheduled at the end of `syncRepository` (lines
186–188) and `syncPullRequest` (lines 246–248): unconditionally blank the
message. -/
def syncMessageAutoClear (s : SyncState) : SyncState :=
  { s with syncMessage := "" }

/-! ## issueStore.ts

The `Issue` shape is the one `issueStore.ts` constructs and consumes
(see `createIssue`, lines 151–177, for the full field list): authoritative
fields from the remote payload plus the two locally-tracked augmentation
fields `linkedPRs` and `isUpdatingLinks`, which are absent (`none`) until the
first local mutation writes them. -/

structure RepoOwner where
  login : String
deriving Repr, DecidableEq

structure RepoRef where
  owner : RepoOwner
  name : String
deriving Repr, DecidableEq

structure IssueLabel where
  name : String
  color : String
deriving Repr, DecidableEq

structure UserRef where
  login : String
  avatar_url : String
deriving Repr, DecidableEq

structure PRHead where
  ref : String
deriving Repr, DecidableEq

structure LinkedPRAuthor where
  login : String
  avatarUrl : String
deriving Repr, DecidableEq

/-- The lightweight cross-reference embedded in an issue's `linkedPRs`
(shape built in `linkPRsToIssue`, lines 662–687). -/
structure LinkedPR where
  id : Nat
  number : Nat
  state : String
  merged : Bool
  draft : Bool
  title : String
  head : Option PRHead
  author : Option LinkedPRAuthor
deriving Repr, DecidableEq

structure Issue where
  id : Nat
  number : Nat
  title : String
  body : Option String
  state : String
  user : UserRef
  labels : List IssueLabel
  assignees : List UserRef
  comments : Nat
  created_at : String
  updated_at : String
  closed_at : Option String
  repository : Option RepoRef
  linkedPRs : Option (List LinkedPR)
  isUpdatingLinks : Option Bool
deriving Repr, DecidableEq

/-- The fields of a cached pull request that `issueStore.ts` reads
(`linkPRsToIssue`, lines 662–675). -/
structure PullRequest where
  id : Nat
  number : Nat
  state : String
  merged : Bool
  draft : Bool
  title : String
  head : Option PRHead
  user : Option UserRef
deriving Repr, DecidableEq

/-- State of `useIssueStore` (`issueStore.ts`, lines 15–59), restricted to the
fields the embedded operations touch.  `issues` is the active index,
`repoIssueCache` the per-scope archive, `loadedRepos` the loaded-scope set. -/
structure IssueState where
  issues : String → Option Issue
  repoIssueCache : String → Option (String → Option Issue)
  loadedRepos : String → Bool
  loading : Bool
  error : Option String

/-- The composite key `` `${owner}/${repo}#${number}` ``. -/
def issueKey (owner repo : String) (number : Nat) : String :=
  owner ++ "/" ++ repo ++ "#" ++ toString number

/-- The scope key `` `${owner}/${repo}` ``. -/
def scopeKey (owner repo : String) : String :=
  owner ++ "/" ++ repo

/-- `fetchIssues`, lines 104–107: index the fetched payload by composite key. -/
def buildIssueIndex (owner repo : String) (fetched : List Issue) :
    String → Option Issue :=
  fetched.foldl (fun m i => mset m (issueKey owner repo i.number) i)
    (fun _ => none)

/-- `fetchIssues` (`issueStore.ts`, lines 61–127).  `remote` folds the token
lookup and `api.getIssues` (or the mock payload) into one outcome.  The
returned `Bool` is true iff the call got past both guards and issued the
fetch; `false` means the guarded early return (no remote call, state
untouched). -/
def fetchIssues (st : IssueState) (owner repo : String) (force : Bool)
    (remote : Except String (List Issue)) : IssueState × Bool :=
  let rfn := scopeKey owner repo
  if st.loading then (st, false)
  else if st.loadedRepos rfn && !force then (st, false)
  else
    match remote with
    | .error msg => ({ st with error := some msg, loading := false }, true)
    | .ok fetched =>
      let issueMap := buildIssueIndex owner repo fetched
      ({ st with
          issues := issueMap,
          repoIssueCache := mset st.repoIssueCache rfn issueMap,
          loading := false,
          error := none,
          loadedRepos := sadd st.loadedRepos rfn }, true)

/-- JS nullish coalescing `a ?? b ?? d`. -/
def nullish {α : Type} (a b : Option α) (d : α) : α :=
  match a with
  | some x => x
  | none =>
    match b with
    | some y => y
    | none => d

/-- `updateIssue` (`issueStore.ts`, lines 208–243): guarded no-op when the
record carries no repository; otherwise replace the record at its composite
key in both the active index and the per-scope archive, defaulting the
augmentation fields from the existing record. -/
def updateIssue (st : IssueState) (issue : Issue) : IssueState :=
  match issue.repository with
  | none => st
  | some repo =>
    let key := issueKey repo.owner.login repo.name issue.number
    let repoKey := scopeKey repo.owner.login repo.name
    let existingIssue := st.issues key
    let updatedIssue :=
      { issue with
        linkedPRs :=
          some (nullish issue.linkedPRs (existingIssue.bind Issue.linkedPRs) []),
        isUpdatingLinks :=
          some (nullish issue.isUpdatingLinks
            (existingIssue.bind Issue.isUpdatingLinks) false) }
    let repoIssues := (st.repoIssueCache repoKey).getD (fun _ => none)
    { st with
      issues := mset st.issues key updatedIssue,
      repoIssueCache :=
        mset st.repoIssueCache repoKey (mset repoIssues key updatedIssue) }

/-- `linkPRsToIssue`, lines 657–688: build one linked reference for `prNum`
from the cached PR store (searched by key suffix `#prNum`), or the fallback
stub when the PR is not cached. -/
def linkedPRFromStore (pullRequests : List (String × PullRequest))
    (prNum : Nat) : LinkedPR :=
  match pullRequests.find? (fun p => p.1.endsWith ("#" ++ toString prNum)) with
  | some (_, pr) =>
    { id := pr.id, number := pr.number, state := pr.state, merged := pr.merged,
      draft := pr.draft, title := pr.title,
      head := pr.head.map (fun h => PRHead.mk h.ref),
      author := pr.user.map (fun u => LinkedPRAuthor.mk u.login u.avatar_url) }
  | none =>
    { id := prNum, number := prNum, state := "open", merged := false,
      draft := false, title := "PR #" ++ toString prNum,
      head := some (PRHead.mk ("branch-" ++ toString prNum)), author := none }

/-- `linkPRsToIssue` (`issueStore.ts`, lines 613–727).  `pullRequests` is the
PR store's cache; `remote` folds the token lookup and the per-PR
`api.linkPRToIssue` loop into one outcome.  Returns the final state and the
call's result (`.error` models the rethrown exception). -/
def linkPRsToIssue (st : IssueState)
    (pullRequests : List (String × PullRequest)) (owner repo : String)
    (issueNumber : Nat) (prNumbers : List Nat)
    (remote : Except String Unit) : IssueState × Except String Unit :=
  let key := issueKey owner repo issueNumber
  match st.issues key with
  | none => (st, .ok ())
  | some issue =>
    let st1 := { st with
      issues := mset st.issues key ({ issue with isUpdatingLinks := some true }) }
    match remote with
    | .error msg =>
      let st2 :=
        match st1.issues key with
        | some currentIssue =>
          let reverted := { currentIssue with isUpdatingLinks := some false }
          { st1 with issues := mset st1.issues key reverted }
        | none => st1
      ({ st2 with error := some msg }, .error msg)
    | .ok _ =>
      let newLinkedPRs := prNumbers.map (linkedPRFromStore pullRequests)
      let st2 :=
        match st1.issues key with
        | some currentIssue =>
          let existingPRs := currentIssue.linkedPRs.getD []
          let existingNumbers := existingPRs.map LinkedPR.number
          let toAdd := newLinkedPRs.filter
            (fun pr => !(existingNumbers.contains pr.number))
          let merged := { currentIssue with
            linkedPRs := some (existingPRs ++ toAdd),
            isUpdatingLinks := some false }
          { st1 with issues := mset st1.issues key merged }
        | none => st1
      (st2, .ok ())

/-- `unlinkPRFromIssue` (`issueStore.ts`, lines 729–802). -/
def unlinkPRFromIssue (st : IssueState) (owner repo : String)
    (issueNumber prNumber : Nat) (remote : Except String Unit) :
    IssueState × Except String Unit :=
  let key := issueKey owner repo issueNumber
  match st.issues key with
  | none => (st, .ok ())
  | some issue =>
    let st1 := { st with
      issues := mset st.issues key ({ issue with isUpdatingLinks := some true }) }
    match remote with
    | .error msg =>
      let st2 :=
        match st1.issues key with
        | some currentIssue =>
          let reverted := { currentIssue with isUpdatingLinks := some false }
          { st1 with issues := mset st1.issues key reverted }
        | none => st1
      ({ st2 with error := some msg }, .error msg)
    | .ok _ =>
      let st2 :=
        match st1.issues key with
        | some currentIssue =>
          let updatedLinkedPRs :=
            (currentIssue.linkedPRs.getD []).filter
              (fun pr => pr.number ≠ prNumber)
          let filtered := { currentIssue with
            linkedPRs := some updatedLinkedPRs,
            isUpdatingLinks := some false }
          { st1 with issues := mset st1.issues key filtered }
        | none => st1
      (st2, .ok ())

/-! ## devinStore.ts — debounced cache persistence -/

/-- One cached agent comment; the fields that survive serialization
(`saveDevinCache` maps `createdAt` through its textual encoding, which the
debounce claims never inspect, so the timestamp is kept abstract). -/
structure DevinComment where
  id : String
  threadId : String
  parsedPrompt : Option String
  createdAt : Nat
deriving Repr, DecidableEq

/-- The persistence side of `devinStore.ts`: `pendingSave` is the
`devinCacheSaveTimer` together with the payload its callback captured
(lines 50–56); `writes` is the sequence of physical
`settings.set("devinCache", ·)` writes already performed, `none` being the
`null` written by `clearComments` (line 222). -/
structure DevinPersistState where
  pendingSave : Option (List DevinComment × Nat)
  writes : List (Option (List DevinComment × Nat))
deriving Repr, DecidableEq

/-- `saveDevinCache` (`devinStore.ts`, lines 51–73): cancel any pending
scheduled write (`clearTimeout`, lines 52–54) and schedule a single write of
this call's payload (`setTimeout`, lines 56–72).  No physical write happens
now. -/
def saveDevinCache (p : DevinPersistState) (comments : List DevinComment)
    (lastFetched : Nat) : DevinPersistState :=
  { p with pendingSave := some (comments, lastFetched) }

/-- The debounce timer firing: perform the scheduled write, if any. -/
def flushDevinSave (p : DevinPersistState) : DevinPersistState :=
  match p.pendingSave with
  | none => p
  | some d => { pendingSave := none, writes := p.writes ++ [some d] }

/-- In-memory state of `useDevinStore` (lines 96–101). -/
structure DevinState where
  comments : List DevinComment
  loading : Bool
  error : Option String
  lastFetched : Option Nat
  cacheLoaded : Bool
deriving Repr, DecidableEq

/-- `clearComments` (`devinStore.ts`, lines 219–224): reset the in-memory
state and write `null` to the durable store immediately — no debounce, and
the pending timer (if any) is left armed. -/
def clearComments (s : DevinState) (p : DevinPersistState) :
    DevinState × DevinPersistState :=
  ({ s with comments := [], lastFetched := none, error := none },
   { p with writes := p.writes ++ [none] })

/-- A burst of `saveDevinCache` calls, in order. -/
def applySaves (p : DevinPersistState)
    (calls : List (List DevinComment × Nat)) : DevinPersistState :=
  calls.foldl (fun q c => saveDevinCache q c.1 c.2) p

/-- Lookup through the two-level archive: `repoIssueCache.get(scope)?.get(key)`. -/
def cacheLookup (st : IssueState) (scope key : String) : Option Issue :=
  match st.repoIssueCache scope with
  | none => none
  | some m => m key

/-! ## Concrete fixtures used by witnesses and counterexamples -/

def emptyIssueState : IssueState :=
  { issues := fun _ => none, repoIssueCache := fun _ => none,
    loadedRepos := fun _ => false, loading := false, error := none }

def sampleUser : UserRef := { login := "octocat", avatar_url := "a.png" }

def sampleIssue : Issue :=
  { id := 7, number := 7, title := "Sample", body := none, state := "open",
    user := sampleUser, labels := [], assignees := [], comments := 0,
    created_at := "2024-01-01T00:00:00Z", updated_at := "2024-01-02T00:00:00Z",
    closed_at := none,
    repository := some { owner := { login := "octo" }, name := "rocket" },
    linkedPRs := none, isUpdatingLinks := none }

def issueNoRepo : Issue := { sampleIssue with repository := none }

def stWithIssue : IssueState :=
  { emptyIssueState with
    issues := mset emptyIssueState.issues (issueKey "octo" "rocket" 7) sampleIssue }

def idleSync : SyncState :=
  { isSyncing := false, lastSyncTime := none, syncProgress := 0,
    syncMessage := "", syncErrors := [] }

def busySync : SyncState :=
  { isSyncing := true, lastSyncTime := none, syncProgress := 50,
    syncMessage := "Syncing 1/3 repos...", syncErrors := [] }

def repo1 : SyncRepo := { id := 1, owner := "o", name := "r1", full_name := "o/r1" }
def repo2 : SyncRepo := { id := 2, owner := "o", name := "r2", full_name := "o/r2" }
def repo3 : SyncRepo := { id := 3, owner := "o", name := "r3", full_name := "o/r3" }

/-- Outcome assignment for the three-scope scenario of the spec: the 2nd
scope's fetch rejects with message `boom`, the others resolve. -/
def threeRepoOutcomes : SyncRepo → Except String Unit :=
  fun r => if r.id = 2 then Except.error "boom" else Except.ok ()

def allOk : SyncRepo → Except String Unit := fun _ => Except.ok ()

/-! ## C10 — updateIssue without repository information is a no-op -/

/-- C10: calling `updateIssue` with an issue record whose `repository` field
is absent is a complete no-op at the public interface: the returned state is
the pre-state itself — neither the active issues map nor `repoIssueCache` is
modified, no error is set, and the call returns normally. -/
theorem updateIssue_no_repository_noop (st : IssueState) (issue : Issue)
    (h : issue.repository = none) : updateIssue st issue = st := by
  unfold updateIssue
  rw [h]

/-- Concrete instantiation of `updateIssue_no_repository_noop` at an issue
record lacking repository information. -/
theorem updateIssue_no_repository_noop_witness :
    issueNoRepo.repository = none ∧
      updateIssue stWithIssue issueNoRepo = stWithIssue :=
  ⟨rfl, updateIssue_no_repository_noop stWithIssue issueNoRepo rfl⟩

/-! ## C7 — fetchIssues is idempotent on a loaded scope -/

/-- C7: with the scope already loaded and `force = false`, `fetchIssues`
returns without issuing the remote call and leaves the whole store state
unchanged; starting instead from an unloaded scope, two consecutive
`force = false` calls issue exactly one remote call in total and the second
call leaves the index of the first unchanged. -/
theorem fetchIssues_cached_no_refetch (st : IssueState) (owner repo : String)
    (payload : List Issue) (remote2 : Except String (List Issue))
    (hload : st.loading = false) :
    (st.loadedRepos (scopeKey owner repo) = true →
      fetchIssues st owner repo false remote2 = (st, false)) ∧
    (st.loadedRepos (scopeKey owner repo) = false →
      (fetchIssues st owner repo false (Except.ok payload)).2 = true ∧
      fetchIssues (fetchIssues st owner repo false (Except.ok payload)).1
          owner repo false remote2
        = ((fetchIssues st owner repo false (Except.ok payload)).1, false)) := by
  constructor
  · intro hrep
    unfold fetchIssues
    simp [hload, hrep]
  · intro hrep
    unfold fetchIssues
    simp [hload, hrep, sadd]

/-- Concrete instantiation of `fetchIssues_cached_no_refetch`: from an empty
store, fetching `octo/rocket` twice issues one remote call and the second
call is the identity. -/
theorem fetchIssues_cached_no_refetch_witness :
    emptyIssueState.loading = false ∧
    emptyIssueState.loadedRepos (scopeKey "octo" "rocket") = false ∧
    ((fetchIssues emptyIssueState "octo" "rocket" false
        (Except.ok [sampleIssue])).2 = true ∧
      fetchIssues (fetchIssues emptyIssueState "octo" "rocket" false
          (Except.ok [sampleIssue])).1 "octo" "rocket" false
          (Except.ok [sampleIssue])
        = ((fetchIssues emptyIssueState "octo" "rocket" false
            (Except.ok [sampleIssue])).1, false)) :=
  ⟨rfl, rfl,
    (fetchIssues_cached_no_refetch emptyIssueState "octo" "rocket"
      [sampleIssue] (Except.ok [sampleIssue]) rfl).2 rfl⟩

/-! ## C8 — failed link/unlink rolls back the flag and keeps the list -/

/-- C8: when the remote call inside `linkPRsToIssue` or `unlinkPRFromIssue`
fails, the target record's `isUpdatingLinks` flag is cleared, the store error
is set, the exception is rethrown to the caller, and the record is otherwise
exactly the previously stored one — in particular its `linkedPRs` list is
unchanged, so no partially-applied link state is observable. -/
theorem link_unlink_failure_rollback (st : IssueState)
    (prs : List (String × PullRequest)) (owner repo : String)
    (issueNumber : Nat) (prNumbers : List Nat) (prNumber : Nat) (msg : String)
    (issue : Issue)
    (h : st.issues (issueKey owner repo issueNumber) = some issue) :
    ((linkPRsToIssue st prs owner repo issueNumber prNumbers
        (Except.error msg)).2 = Except.error msg) ∧
    ((linkPRsToIssue st prs owner repo issueNumber prNumbers
        (Except.error msg)).1.error = some msg) ∧
    ((linkPRsToIssue st prs owner repo issueNumber prNumbers
        (Except.error msg)).1.issues (issueKey owner repo issueNumber)
        = some { issue with isUpdatingLinks := some false }) ∧
    ((unlinkPRFromIssue st owner repo issueNumber prNumber
        (Except.error msg)).2 = Except.error msg) ∧
    ((unlinkPRFromIssue st owner repo issueNumber prNumber
        (Except.error msg)).1.error = some msg) ∧
    ((unlinkPRFromIssue st owner repo issueNumber prNumber
        (Except.error msg)).1.issues (issueKey owner repo issueNumber)
        = some { issue with isUpdatingLinks := some false }) := by
  simp [linkPRsToIssue, unlinkPRFromIssue, h, mset]

/-- Concrete instantiation of `link_unlink_failure_rollback` at a store
holding issue `octo/rocket#7`. -/
theorem link_unlink_failure_rollback_witness :
    stWithIssue.issues (issueKey "octo" "rocket" 7) = some sampleIssue ∧
    ((linkPRsToIssue stWithIssue [] "octo" "rocket" 7 [3]
        (Except.error "down")).1.issues (issueKey "octo" "rocket" 7)
      = some { sampleIssue with isUpdatingLinks := some false }) :=
  ⟨by simp [stWithIssue, emptyIssueState, mset],
   (link_unlink_failure_rollback stWithIssue [] "octo" "rocket" 7 [3] 9 "down"
      sampleIssue (by simp [stWithIssue, emptyIssueState, mset])).2.2.1⟩

/-! ## C9 — debounced persistence coalesces, clear bypasses -/

/-- Helper: a burst of `saveDevinCache` calls only replaces the single
pending slot with the latest payload; nothing is written. -/
theorem applySaves_eq (calls : List (List DevinComment × Nat)) :
    ∀ (p : DevinPersistState) (c0 : List DevinComment × Nat),
      applySaves p (c0 :: calls)
        = { p with pendingSave := some (calls.getLastD c0) } := by
  induction calls with
  | nil => intro p c0; rfl
  | cons c1 rest ih =>
    intro p c0
    have h1 : applySaves p (c0 :: c1 :: rest)
        = applySaves (saveDevinCache p c0.1 c0.2) (c1 :: rest) := rfl
    rw [h1, ih, List.getLastD_cons]
    rfl

/-- C9: every `saveDevinCache` call cancels the pending scheduled write and
schedules exactly one write of its own payload (the single `pendingSave`
slot, so at most one write is pending at any time); a burst of `N ≥ 1` calls
within one debounce window performs no physical write until the timer fires,
and then performs exactly one write containing the last call's payload;
`clearComments` writes `null` immediately, bypassing the debounce. -/
theorem saveDevinCache_debounce (p : DevinPersistState)
    (c0 : List DevinComment × Nat) (rest : List (List DevinComment × Nat))
    (s : DevinState) :
    (saveDevinCache p c0.1 c0.2).pendingSave = some c0 ∧
    (saveDevinCache p c0.1 c0.2).writes = p.writes ∧
    (applySaves p (c0 :: rest)).writes = p.writes ∧
    (applySaves p (c0 :: rest)).pendingSave = some (rest.getLastD c0) ∧
    (flushDevinSave (applySaves p (c0 :: rest))).writes
      = p.writes ++ [some (rest.getLastD c0)] ∧
    (flushDevinSave (applySaves p (c0 :: rest))).pendingSave = none ∧
    (clearComments s p).2.writes = p.writes ++ [none] ∧
    (clearComments s p).1.comments = [] := by
  rw [applySaves_eq rest p c0]
  refine ⟨rfl, rfl, rfl, rfl, rfl, rfl, rfl, rfl⟩

/-! ## C2 — only two of the three sync triggers carry the running-guard -/

/-- C2 counterexample: with a sync session already running
(`busySync.isSyncing = true`), `syncPullRequest` is *not* a silent no-op — it
proceeds, completes, records a sync time and resets `isSyncing`, so the
claimed guard on every new sync trigger does not hold for `syncPullRequest`. -/
theorem syncPullRequest_unguarded_cex :
    busySync.isSyncing = true ∧
    (syncPullRequestFinal busySync 5 7 (Except.ok ())).isSyncing = false ∧
    (syncPullRequestFinal busySync 5 7 (Except.ok ())).syncMessage
      = "PR synced!" ∧
    (syncPullRequestFinal busySync 5 7 (Except.ok ())).lastSyncTime = some 5 ∧
    syncPullRequestFinal busySync 5 7 (Except.ok ()) ≠ busySync := by
  refine ⟨rfl, rfl, rfl, rfl, fun hEq => ?_⟩
  have h5 := congrArg SyncState.lastSyncTime hEq
  exact Option.noConfusion (show (some 5 : Option Nat) = none from h5)

/-- C2 (amended): while a sync session is running, `syncAll` and
`syncRepository` return as silent no-ops (nothing published, state
unchanged); `syncPullRequest` carries no running-guard: it always publishes
and runs to completion, ending with `isSyncing = false`. -/
theorem sync_running_guard (st : SyncState) (now : Nat)
    (repoFetch : Except String Unit) (selected : Option SyncRepo)
    (recent : List SyncRepo) (outcomes : SyncRepo → Except String Unit)
    (owner repo : String) (outR outP : Except String Unit) (number : Nat)
    (h : st.isSyncing = true) :
    syncAllTrace st now repoFetch selected recent outcomes = [] ∧
    syncAllFinal st now repoFetch selected recent outcomes = st ∧
    syncRepositoryTrace st now owner repo outR = [] ∧
    syncRepositoryFinal st now owner repo outR = st ∧
    syncPullRequestTrace st now number outP ≠ [] ∧
    (syncPullRequestFinal st now number outP).isSyncing = false := by
  refine ⟨?_, ?_, ?_, ?_, ?_, ?_⟩
  · simp [syncAllTrace, h]
  · simp [syncAllFinal, syncAllTrace, h]
  · simp [syncRepositoryTrace, h]
  · simp [syncRepositoryFinal, syncRepositoryTrace, h]
  · cases outP <;> simp [syncPullRequestTrace]
  · cases outP <;> rfl

/-- Concrete instantiation of `sync_running_guard` at a running session. -/
theorem sync_running_guard_witness :
    busySync.isSyncing = true ∧
    syncAllFinal busySync 5 (Except.ok ()) none [repo1] allOk = busySync ∧
    syncRepositoryFinal busySync 5 "o" "r1" (Except.ok ()) = busySync :=
  ⟨rfl,
   (sync_running_guard busySync 5 (Except.ok ()) none [repo1] allOk "o" "r1"
      (Except.ok ()) (Except.ok ()) 7 rfl).2.1,
   (sync_running_guard busySync 5 (Except.ok ()) none [repo1] allOk "o" "r1"
      (Except.ok ()) (Except.ok ()) 7 rfl).2.2.2.1⟩

/-! ## C1 — syncAll wipes the accumulated errors at batch completion -/

/-- C1 counterexample: in the 3-scope run where exactly the 2nd scope's fetch
fails, the error list holds exactly one entry naming the failing scope right
up to batch completion, but the completion step clears it unconditionally, so
after the batch settles the session's error list is empty — not the single
entry the claim asserts. -/
theorem syncAll_errors_cleared_cex :
    ((syncAllTrace idleSync 0 (Except.ok ()) none [repo1, repo2, repo3]
        threeRepoOutcomes).dropLast.getLast?).map SyncState.syncErrors
      = some ["Failed to sync o/r2: boom"] ∧
    (syncAllFinal idleSync 0 (Except.ok ()) none [repo1, repo2, repo3]
        threeRepoOutcomes).syncErrors = [] := by
  constructor <;> rfl

/-- C1 (amended): on batch completion `syncAll` clears the error list
unconditionally — whether or not scopes failed — so whenever the
repository-list fetch succeeded the final error list is empty; in the 3-scope
run where exactly the 2nd scope's fetch fails, the single entry naming the
failing scope is present in the state published immediately before batch
completion and gone after the batch settles. -/
theorem syncAll_clears_errors_unconditionally (st : SyncState) (now : Nat)
    (selected : Option SyncRepo) (recent : List SyncRepo)
    (outcomes : SyncRepo → Except String Unit) (h : st.isSyncing = false) :
    (syncAllFinal st now (Except.ok ()) selected recent outcomes).syncErrors
      = [] ∧
    ((syncAllTrace idleSync 0 (Except.ok ()) none [repo1, repo2, repo3]
        threeRepoOutcomes).dropLast.getLast?).map SyncState.syncErrors
      = some ["Failed to sync o/r2: boom"] := by
  constructor
  · unfold syncAllFinal syncAllTrace
    simp only [h, Bool.false_eq_true, if_false]
    split
    · rfl
    · rw [List.getLast?_concat]
      rfl
  · rfl

/-- Concrete instantiation of `syncAll_clears_errors_unconditionally` at an
idle session. -/
theorem syncAll_clears_errors_unconditionally_witness :
    idleSync.isSyncing = false ∧
    (syncAllFinal idleSync 0 (Except.ok ()) none [repo1, repo2, repo3]
        threeRepoOutcomes).syncErrors = [] :=
  ⟨rfl,
   (syncAll_clears_errors_unconditionally idleSync 0 none
      [repo1, repo2, repo3] threeRepoOutcomes rfl).1⟩

/-! ## C5 — the deferred status reset is unconditional -/

/-- A state published mid-run by a second `syncAll` run (progress 20, still
running) that is current when the first run's deferred reset fires: the first
run completes over an empty scope set, the second run starts and publishes
its repository-list progress. -/
def staleMidState : SyncState :=
  (syncAllTrace (syncAllFinal idleSync 0 (Except.ok ()) none [] allOk) 1
      (Except.ok ()) none [repo1] allOk).getD 2 idleSync

/-- C5 counterexample: the auto-clear scheduled at the end of one `syncAll`
run, firing while a subsequent run is mid-flight (`isSyncing = true`,
progress 20), zeroes that newer run's progress and blanks its message — an
unconditional overwrite with no guarded state check. -/
theorem syncAll_autoClear_overwrites_cex :
    staleMidState.isSyncing = true ∧
    staleMidState.syncProgress = 20 ∧
    staleMidState.syncMessage = "Fetching repositories..." ∧
    (syncAllAutoClear staleMidState).syncProgress = 0 ∧
    (syncAllAutoClear staleMidState).syncMessage = "" ∧
    (syncAllAutoClear staleMidState).isSyncing = true :=
  ⟨rfl, rfl, rfl, rfl, rfl, rfl⟩

/-- C5 (amended): the deferred resets are unconditional: whenever they fire
they blank the status message (and, for the `syncAll` reset, zero the
progress) of whatever session state is then current — running or idle — with
no guarded state check; the rest of the state is untouched. -/
theorem syncAutoClear_unconditional (s : SyncState) :
    (syncAllAutoClear s).syncMessage = "" ∧
    (syncAllAutoClear s).syncProgress = 0 ∧
    (syncAllAutoClear s).isSyncing = s.isSyncing ∧
    (syncAllAutoClear s).syncErrors = s.syncErrors ∧
    (syncAllAutoClear s).lastSyncTime = s.lastSyncTime ∧
    (syncMessageAutoClear s).syncMessage = "" ∧
    (syncMessageAutoClear s).syncProgress = s.syncProgress :=
  ⟨rfl, rfl, rfl, rfl, rfl, rfl, rfl⟩

/-! ## C3 — only updateIssue keeps the archive coherent -/

/-- The store after seeding issue `octo/rocket#7` through `updateIssue`
(which writes both levels) and then linking PR 3 through `linkPRsToIssue`. -/
def linkedState : IssueState :=
  (linkPRsToIssue (updateIssue emptyIssueState sampleIssue) []
    "octo" "rocket" 7 [3] (Except.ok ())).1

/-- C3 counterexample: after the `linkPRsToIssue` mutation on scope
`octo/rocket`, the record in the active index carries the new linked PR while
the record at the same composite key in `repoIssueCache` still carries the
old (empty) list — the mutation updated the active index without the archive,
so the two records are not structurally equal. -/
theorem link_skips_archive_cex :
    ((linkedState.issues (issueKey "octo" "rocket" 7)).bind Issue.linkedPRs
      = some [linkedPRFromStore [] 3]) ∧
    ((cacheLookup linkedState (scopeKey "octo" "rocket")
        (issueKey "octo" "rocket" 7)).bind Issue.linkedPRs = some []) ∧
    linkedState.issues (issueKey "octo" "rocket" 7)
      ≠ cacheLookup linkedState (scopeKey "octo" "rocket")
          (issueKey "octo" "rocket" 7) := by
  refine ⟨rfl, rfl, ?_⟩
  intro hEq
  have hL := congrArg (fun o => o.bind Issue.linkedPRs) hEq
  have : (some [linkedPRFromStore [] 3] : Option (List LinkedPR)) = some [] :=
    hL
  simp at this

/-- C3 (amended): `updateIssue` does update the active index and the
per-scope archive as one transition — afterwards the record at the composite
key is the same in both — but the link/unlink mutations update only the
active index: they leave `repoIssueCache` entirely unchanged, so after
`linkPRsToIssue` the two levels can disagree at the mutated key. -/
theorem updateIssue_coherent_link_skips_archive (st : IssueState)
    (issue : Issue) (repo : RepoRef) (h : issue.repository = some repo)
    (prs : List (String × PullRequest)) (owner rname : String) (n : Nat)
    (prNums : List Nat) (remote : Except String Unit) (prNum : Nat) :
    ((updateIssue st issue).issues
        (issueKey repo.owner.login repo.name issue.number)
      = cacheLookup (updateIssue st issue)
          (scopeKey repo.owner.login repo.name)
          (issueKey repo.owner.login repo.name issue.number)) ∧
    ((linkPRsToIssue st prs owner rname n prNums remote).1.repoIssueCache
      = st.repoIssueCache) ∧
    ((unlinkPRFromIssue st owner rname n prNum remote).1.repoIssueCache
      = st.repoIssueCache) := by
  refine ⟨?_, ?_, ?_⟩
  · simp [updateIssue, h, cacheLookup, mset]
  · unfold linkPRsToIssue
    cases hk : st.issues (issueKey owner rname n) with
    | none => simp [hk]
    | some i =>
      cases remote with
      | error m => simp [hk, mset]
      | ok u => simp [hk, mset]
  · unfold unlinkPRFromIssue
    cases hk : st.issues (issueKey owner rname n) with
    | none => simp [hk]
    | some i =>
      cases remote with
      | error m => simp [hk, mset]
      | ok u => simp [hk, mset]

/-- Concrete instantiation of `updateIssue_coherent_link_skips_archive` at
issue `octo/rocket#7`. -/
theorem updateIssue_coherent_link_skips_archive_witness :
    sampleIssue.repository = some (RepoRef.mk (RepoOwner.mk "octo") "rocket") ∧
    ((updateIssue emptyIssueState sampleIssue).issues
        (issueKey "octo" "rocket" 7)
      = cacheLookup (updateIssue emptyIssueState sampleIssue)
          (scopeKey "octo" "rocket") (issueKey "octo" "rocket" 7)) :=
  ⟨rfl,
   (updateIssue_coherent_link_skips_archive emptyIssueState sampleIssue
      (RepoRef.mk (RepoOwner.mk "octo") "rocket") rfl []
      "octo" "rocket" 7 [3] (Except.ok ()) 3).1⟩

/-! ## C4 — forced refetch replaces; augmentation fields are dropped -/

/-- The fresh remote payload for `octo/rocket#7`: same issue, new title, no
augmentation fields (remote payloads never carry them). -/
def freshSample : Issue := { sampleIssue with title := "Sample v2" }

/-- C4 counterexample: the prior record of `octo/rocket#7` carries a
locally-tracked `linkedPRs` entry; after `fetchIssues` with `force = true`
the record at that key is exactly the fresh payload record, whose
`linkedPRs` is absent — the augmentation field was not preserved. -/
theorem fetchIssues_drops_augmentation_cex :
    ((linkedState.issues (issueKey "octo" "rocket" 7)).bind Issue.linkedPRs
      = some [linkedPRFromStore [] 3]) ∧
    linkedState.loading = false ∧
    ((fetchIssues linkedState "octo" "rocket" true
        (Except.ok [freshSample])).1.issues (issueKey "octo" "rocket" 7)
      = some freshSample) ∧
    freshSample.linkedPRs = none ∧
    freshSample.isUpdatingLinks = none :=
  ⟨rfl, rfl, rfl, rfl, rfl⟩

/-- C4 (amended): a forced refetch replaces the scope's records outright: the
resulting active index and the scope's archive entry are exactly the index
built from the fresh remote payload, with no merge against prior records —
locally-tracked augmentation fields of prior records are not preserved by
`fetchIssues`. -/
theorem fetchIssues_force_replaces (st : IssueState) (owner repo : String)
    (fetched : List Issue) (h : st.loading = false) :
    (fetchIssues st owner repo true (Except.ok fetched)).1.issues
      = buildIssueIndex owner repo fetched ∧
    (fetchIssues st owner repo true (Except.ok fetched)).1.repoIssueCache
        (scopeKey owner repo) = some (buildIssueIndex owner repo fetched) ∧
    (fetchIssues st owner repo true (Except.ok fetched)).2 = true := by
  unfold fetchIssues
  simp [h, mset]

/-- Concrete instantiation of `fetchIssues_force_replaces` at the linked
store. -/
theorem fetchIssues_force_replaces_witness :
    linkedState.loading = false ∧
    (fetchIssues linkedState "octo" "rocket" true
        (Except.ok [freshSample])).1.issues
      = buildIssueIndex "octo" "rocket" [freshSample] :=
  ⟨rfl,
   (fetchIssues_force_replaces linkedState "octo" "rocket" [freshSample]
      rfl).1⟩

/-! ## C6 — progress values of one whole-workspace run -/

/-- The progress value published when the k-th of `total` scopes settles:
`min (20 + 80 * (k / total)) 99`, exactly the value `updateProgress`
computes. -/
def settleQ (total k : Nat) : ℚ :=
  min (20 + 80 * ((k : ℚ) / (total : ℚ))) 99

theorem updateProgressState_progress (s : SyncState) (c t : Nat) :
    (updateProgressState s c t).syncProgress = settleQ t c := rfl

theorem settleQ_mono (total : Nat) {j k : Nat} (h : j ≤ k) :
    settleQ total j ≤ settleQ total k := by
  unfold settleQ
  refine min_le_min (add_le_add_left ?_ 20) le_rfl
  rw [div_eq_mul_inv, div_eq_mul_inv]
  refine mul_le_mul_of_nonneg_left ?_ (by norm_num)
  refine mul_le_mul_of_nonneg_right ?_ (inv_nonneg.mpr (Nat.cast_nonneg total))
  exact_mod_cast h

theorem settleQ_ge_20 (total k : Nat) : 20 ≤ settleQ total k := by
  unfold settleQ
  refine le_min ?_ (by norm_num)
  have hk : (0 : ℚ) ≤ 80 * ((k : ℚ) / (total : ℚ)) := by positivity
  linarith

theorem settleQ_lt_100 (total k : Nat) : settleQ total k < 100 :=
  lt_of_le_of_lt (min_le_right _ _) (by norm_num)

theorem settleQ_zero (total : Nat) : settleQ total 0 = 20 := by
  unfold settleQ
  rw [Nat.cast_zero, zero_div, mul_zero, add_zero]
  exact min_eq_left (by norm_num)

/-- Published progress values never decrease along the per-scope loop. -/
theorem syncLoop_chain (total : Nat) (evs : List (SyncRepo × Except String Unit)) :
    ∀ (c : Nat) (s : SyncState), s.syncProgress = settleQ total c →
      List.Chain' (fun a b => a.syncProgress ≤ b.syncProgress)
        (s :: syncLoop total c s evs) := by
  induction evs with
  | nil => intro c s _; simp [syncLoop]
  | cons ev rest ih =>
    intro c s hs
    obtain ⟨repo, outcome⟩ := ev
    cases outcome with
    | ok u =>
      simp only [syncLoop]
      refine List.chain'_cons.2 ⟨?_, ih (c + 1) _ rfl⟩
      rw [hs, updateProgressState_progress]
      exact settleQ_mono total (Nat.le_succ c)
    | error m =>
      simp only [syncLoop]
      refine List.chain'_cons.2 ⟨le_of_eq rfl, ?_⟩
      refine List.chain'_cons.2 ⟨?_, ih (c + 1) _ rfl⟩
      show (addSyncErrorState s _).syncProgress
        ≤ (updateProgressState _ (c + 1) total).syncProgress
      rw [updateProgressState_progress]
      have hE : (addSyncErrorState s
          ("Failed to sync " ++ repo.full_name ++ ": " ++ m)).syncProgress
          = settleQ total c := hs
      rw [hE]
      exact settleQ_mono total (Nat.le_succ c)

/-- Every state published by the per-scope loop carries a progress value of
the settle family, with an index between the running counter and the batch
size. -/
theorem syncLoop_progress_mem (total : Nat)
    (evs : List (SyncRepo × Except String Unit)) :
    ∀ (c : Nat) (s : SyncState), s.syncProgress = settleQ total c →
      ∀ x ∈ syncLoop total c s evs,
        ∃ k, c ≤ k ∧ k ≤ c + evs.length ∧ x.syncProgress = settleQ total k := by
  induction evs with
  | nil => intro c s _ x hx; simp [syncLoop] at hx
  | cons ev rest ih =>
    intro c s hs x hx
    obtain ⟨repo, outcome⟩ := ev
    cases outcome with
    | ok u =>
      simp only [syncLoop] at hx
      rcases List.mem_cons.1 hx with hx1 | hx2
      · exact ⟨c + 1, Nat.le_succ c, by simp, by rw [hx1]; rfl⟩
      · obtain ⟨k, hk1, hk2, hk3⟩ := ih (c + 1) _ rfl x hx2
        exact ⟨k, le_trans (Nat.le_succ c) hk1, by simp; omega, hk3⟩
    | error m =>
      simp only [syncLoop] at hx
      rcases List.mem_cons.1 hx with hx1 | hx2
      · exact ⟨c, le_rfl, by simp, by rw [hx1]; exact hs⟩
      · rcases List.mem_cons.1 hx2 with hx3 | hx4
        · exact ⟨c + 1, Nat.le_succ c, by simp, by rw [hx3]; rfl⟩
        · obtain ⟨k, hk1, hk2, hk3⟩ := ih (c + 1) _ rfl x hx4
          exact ⟨k, le_trans (Nat.le_succ c) hk1, by simp; omega, hk3⟩

/-- Every settle index in the batch is attained by some published state. -/
theorem syncLoop_settle_attained (total : Nat)
    (evs : List (SyncRepo × Except String Unit)) :
    ∀ (c : Nat) (s : SyncState) (j : Nat), c < j → j ≤ c + evs.length →
      ∃ x ∈ syncLoop total c s evs, x.syncProgress = settleQ total j := by
  induction evs with
  | nil => intro c s j h1 h2; simp at h2; omega
  | cons ev rest ih =>
    intro c s j h1 h2
    obtain ⟨repo, outcome⟩ := ev
    by_cases hj : j = c + 1
    · subst hj
      cases outcome with
      | ok u =>
        exact ⟨updateProgressState s (c + 1) total, by simp [syncLoop], rfl⟩
      | error m =>
        refine ⟨updateProgressState (addSyncErrorState s
          ("Failed to sync " ++ repo.full_name ++ ": " ++ m)) (c + 1) total,
          ?_, rfl⟩
        simp [syncLoop]
    · have h1' : c + 1 < j := by omega
      have h2' : j ≤ (c + 1) + rest.length := by simp at h2; omega
      cases outcome with
      | ok u =>
        obtain ⟨x, hx, hpx⟩ := ih (c + 1) (updateProgressState s (c + 1) total)
          j h1' h2'
        refine ⟨x, ?_, hpx⟩
        simp only [syncLoop]
        exact List.mem_cons_of_mem _ hx
      | error m =>
        obtain ⟨x, hx, hpx⟩ := ih (c + 1)
          (updateProgressState (addSyncErrorState s
            ("Failed to sync " ++ repo.full_name ++ ": " ++ m)) (c + 1) total)
          j h1' h2'
        refine ⟨x, ?_, hpx⟩
        simp only [syncLoop]
        exact List.mem_cons_of_mem _ (List.mem_cons_of_mem _ hx)

/-- The first state `syncAll` publishes (the `set` of lines 64–70). -/
def syncStartState (st : SyncState) : SyncState :=
  { st with isSyncing := true, syncProgress := 0,
            syncMessage := "Starting sync...", syncErrors := [] }

/-- The state published just before the repository-list fetch (line 77). -/
def syncFetchingState (st : SyncState) : SyncState :=
  { syncStartState st with syncMessage := "Fetching repositories..." }

/-- The state published when the repository-list fetch settles (line 79). -/
def syncAt20State (st : SyncState) : SyncState :=
  { syncFetchingState st with syncProgress := 20 }

/-- The batch-completion state (the `set` of lines 132–138). -/
def syncDoneState (st : SyncState) (now : Nat) (n : Nat)
    (evs : List (SyncRepo × Except String Unit)) : SyncState :=
  { (syncLoop n 0 (syncAt20State st) evs).getLast?.getD (syncAt20State st) with
    isSyncing := false, lastSyncTime := some now, syncProgress := 100,
    syncMessage := "Sync complete!", syncErrors := [] }

/-- Shape of the `syncAll` trace for an idle store, a successful
repository-list fetch and a non-empty scope set. -/
theorem syncAllTrace_ok_decomp (st : SyncState) (now : Nat)
    (selected : Option SyncRepo) (recent : List SyncRepo)
    (outcomes : SyncRepo → Except String Unit)
    (h : st.isSyncing = false)
    (hn : (reposToSync selected recent).length ≠ 0) :
    syncAllTrace st now (Except.ok ()) selected recent outcomes
      = syncStartState st :: syncFetchingState st :: syncAt20State st ::
        (syncLoop (reposToSync selected recent).length 0 (syncAt20State st)
            ((reposToSync selected recent).map (fun r => (r, outcomes r)))
          ++ [syncDoneState st now (reposToSync selected recent).length
              ((reposToSync selected recent).map (fun r => (r, outcomes r)))]) := by
  unfold syncAllTrace
  simp only [h, Bool.false_eq_true, if_false]
  rw [if_neg hn]
  simp [syncStartState, syncFetchingState, syncAt20State, syncDoneState]

/-- C6: within one whole-workspace sync run over a non-empty scope set whose
repository-list fetch succeeds: the published progress values are
non-decreasing; the state published when the repository-list refresh settles
(position 2 of the trace) has progress 20 and every later published value is
at least 20 (so no later value lies in `[0, 20)`); for each `k < n` the run
publishes the settle value `min (20 + 80 * ((k+1) / n)) 99` — the formula
clamped below 100; and no published state except the last (batch completion)
has progress 100, while the last has exactly 100. -/
theorem syncAll_progress_spec (st : SyncState) (now : Nat)
    (selected : Option SyncRepo) (recent : List SyncRepo)
    (outcomes : SyncRepo → Except String Unit)
    (h : st.isSyncing = false) (hne : reposToSync selected recent ≠ []) :
    List.Chain' (fun a b => a.syncProgress ≤ b.syncProgress)
      (syncAllTrace st now (Except.ok ()) selected recent outcomes) ∧
    ((syncAllTrace st now (Except.ok ()) selected recent outcomes).get? 2).map
        SyncState.syncProgress = some 20 ∧
    (∀ x ∈ (syncAllTrace st now (Except.ok ()) selected recent outcomes).drop 2,
        20 ≤ x.syncProgress) ∧
    (∀ k ∈ List.range (reposToSync selected recent).length,
        ∃ x ∈ syncAllTrace st now (Except.ok ()) selected recent outcomes,
          x.syncProgress = min (20 + 80 * (((k : ℚ) + 1)
              / ((reposToSync selected recent).length : ℚ))) 99
            ∧ x.syncProgress < 100) ∧
    (∀ x ∈ (syncAllTrace st now (Except.ok ()) selected recent
        outcomes).dropLast, x.syncProgress ≠ 100) ∧
    ((syncAllTrace st now (Except.ok ()) selected recent
        outcomes).getLast?).map SyncState.syncProgress = some 100 := by
  have hn : (reposToSync selected recent).length ≠ 0 :=
    fun h0 => hne (List.length_eq_zero.mp h0)
  have hT := syncAllTrace_ok_decomp st now selected recent outcomes h hn
  set n := (reposToSync selected recent).length with hnn
  set evs := (reposToSync selected recent).map (fun r => (r, outcomes r))
    with hevs
  set steps := syncLoop n 0 (syncAt20State st) evs with hsteps
  set sDone := syncDoneState st now n evs with hsdone
  have h20 : (syncAt20State st).syncProgress = settleQ n 0 := by
    rw [settleQ_zero]
    rfl
  have hmem : ∀ x ∈ steps, ∃ k, k ≤ evs.length
      ∧ x.syncProgress = settleQ n k := by
    intro x hx
    obtain ⟨k, _, hk2, hk3⟩ :=
      syncLoop_progress_mem n evs 0 (syncAt20State st) h20 x hx
    exact ⟨k, by omega, hk3⟩
  have hlt : ∀ x ∈ steps, x.syncProgress < 100 := by
    intro x hx
    obtain ⟨k, _, hk⟩ := hmem x hx
    rw [hk]
    exact settleQ_lt_100 n k
  have hge : ∀ x ∈ steps, 20 ≤ x.syncProgress := by
    intro x hx
    obtain ⟨k, _, hk⟩ := hmem x hx
    rw [hk]
    exact settleQ_ge_20 n k
  have hsplit : syncStartState st :: syncFetchingState st :: syncAt20State st
        :: (steps ++ [sDone])
      = (syncStartState st :: syncFetchingState st :: syncAt20State st
          :: steps) ++ [sDone] := by
    simp
  refine ⟨?_, ?_, ?_, ?_, ?_, ?_⟩
  · rw [hT]
    refine List.chain'_cons.2 ⟨le_of_eq rfl, ?_⟩
    refine List.chain'_cons.2 ⟨?_, ?_⟩
    · show (0 : ℚ) ≤ 20
      norm_num
    · rw [← List.cons_append]
      refine List.Chain'.append
        (syncLoop_chain n evs 0 (syncAt20State st) h20)
        (List.chain'_singleton _) ?_
      intro x hx y hy
      have hy' : y = sDone := (by simpa using hy : sDone = y).symm
      have hne' : syncAt20State st :: steps ≠ [] := by simp
      rw [List.getLast?_eq_getLast_of_ne_nil hne'] at hx
      have hx' : (syncAt20State st :: steps).getLast hne' = x := by
        simpa using hx
      have hxl : x ∈ syncAt20State st :: steps := by
        rw [← hx']
        exact List.getLast_mem hne'
      have hle : x.syncProgress ≤ 100 := by
        rcases List.mem_cons.1 hxl with h1 | h2
        · rw [h1]
          show (20 : ℚ) ≤ 100
          norm_num
        · exact le_of_lt (hlt x h2)
      rw [hy']
      exact hle
  · rw [hT]
    rfl
  · rw [hT]
    intro x hx
    simp only [List.drop_succ_cons, List.drop_zero] at hx
    rcases List.mem_cons.1 hx with h1 | h2
    · rw [h1]
      exact le_rfl
    · rcases List.mem_append.1 h2 with h3 | h4
      · exact hge x h3
      · have hx4 : x = sDone := by simpa using h4
        rw [hx4]
        show (20 : ℚ) ≤ 100
        norm_num
  · intro k hk
    have hk' : k < n := List.mem_range.1 hk
    have hlen : evs.length = n := by
      rw [hevs, hnn]
      simp
    obtain ⟨x, hx, hpx⟩ := syncLoop_settle_attained n evs 0 (syncAt20State st)
      (k + 1) (Nat.succ_pos k) (by omega)
    refine ⟨x, ?_, ?_, ?_⟩
    · rw [hT]
      exact List.mem_cons_of_mem _ (List.mem_cons_of_mem _
        (List.mem_cons_of_mem _ (List.mem_append_left _ hx)))
    · rw [hpx]
      unfold settleQ
      push_cast
      ring_nf
    · rw [hpx]
      exact settleQ_lt_100 n (k + 1)
  · rw [hT]
    intro x hx
    rw [hsplit, List.dropLast_concat] at hx
    rcases List.mem_cons.1 hx with h1 | hx
    · rw [h1]
      show (0 : ℚ) ≠ 100
      norm_num
    rcases List.mem_cons.1 hx with h2 | hx
    · rw [h2]
      show (0 : ℚ) ≠ 100
      norm_num
    rcases List.mem_cons.1 hx with h3 | hx
    · rw [h3]
      show (20 : ℚ) ≠ 100
      norm_num
    exact ne_of_lt (hlt x hx)
  · rw [hT, hsplit, List.getLast?_concat]
    rfl

/-- Concrete instantiation of `syncAll_progress_spec`: idle store, one scope. -/
theorem syncAll_progress_spec_witness :
    idleSync.isSyncing = false ∧
    reposToSync none [repo1] ≠ [] ∧
    List.Chain' (fun a b => a.syncProgress ≤ b.syncProgress)
      (syncAllTrace idleSync 0 (Except.ok ()) none [repo1] allOk) :=
  ⟨rfl, by simp [reposToSync],
   (syncAll_progress_spec idleSync 0 none [repo1] allOk rfl
      (by simp [reposToSync])).1⟩

end Bottleneck
